import Mathlib

/-!
Verification development for the schematic-analyzer repository.

The definitions below are a shallow embedding of the TypeScript sources:
  * `src/types.ts`                 - the data model,
  * `src/services/geminiService.ts` - `mapTypeToIcon`, `detectSchematicPages`,
                                      `analyzeSchematicImage`,
  * `src/App.tsx`                  - the `handleFileSelected` orchestration loop,
  * `src/components/ComponentList.tsx` - `handleChange` / `handleDelete` / `handleAdd`.

Backend (Gemini) calls are modelled as environment functions supplied as
parameters: the classifier receives, per batch number, either `none` (the call
threw, the response had no text, or its JSON failed to parse) or `some ids`
(the parsed batch-local index list); the extractor receives an
`ExtractResponse` per global page index.
-/

namespace SchematicAnalyzer

/-! ## Data model (src/types.ts)

JSON numbers inside bounding boxes are modelled as rationals; they are only
carried around, never computed with.  Fields that the TypeScript interfaces
declare but that a parsed backend JSON object may lack are modelled as
`Option` in `RawAnalysis` below. -/

/-- `SchematicComponent` from src/types.ts.  `boundingBox` and `icon` are
optional in the interface; `none` models an absent property. -/
structure SchematicComponent where
  designator : String
  type : String
  value : String
  notes : String
  boundingBox : Option (List ℚ) := none
  icon : Option String := none
deriving DecidableEq, Repr

/-- `FunctionalBlock` from src/types.ts. -/
structure FunctionalBlock where
  name : String
  description : String
  componentsInvolved : List String
deriving DecidableEq, Repr

/-- `Net` from src/types.ts. -/
structure Net where
  id : String
  connectedPins : List String
deriving DecidableEq, Repr

/-- The object obtained by `JSON.parse(response.text)` in
`analyzeSchematicImage` (src/services/geminiService.ts:190).  The TypeScript
code casts it to `SchematicAnalysis` without validating anything, so every
top-level property may be absent; `none` models an absent property. -/
structure RawAnalysis where
  title : Option String
  overview : Option String
  components : Option (List SchematicComponent)
  functionalBlocks : Option (List FunctionalBlock)
  connectivityLogic : Option String
  netlist : Option (List Net)
  potentialIssues : Option (List String)
deriving DecidableEq, Repr

/-- `AnalysisStatus` from src/types.ts. -/
inductive AnalysisStatus where
  | idle
  | rendering_pdf
  | filtering
  | analyzing
  | complete
  | error
deriving DecidableEq, Repr

/-- `PageResult` from src/types.ts, minus the `id` field, which
src/App.tsx:115 fills with a random UUID (`crypto.randomUUID()`) that no
claim mentions. -/
structure PageResult where
  pageNumber : Nat
  image : String
  analysis : RawAnalysis
deriving DecidableEq, Repr

/-! ## String helpers

JavaScript's `String.prototype.includes` and `String.prototype.toLowerCase`,
on the character lists underlying Lean strings.  (`toLowerCase` is modelled
with Lean's per-character ASCII lowercasing; every keyword the code matches
against is plain ASCII.) -/

/-- `p.isPrefixOf s` on character lists. -/
def isPrefixB : List Char → List Char → Bool
  | [], _ => true
  | _ :: _, [] => false
  | p :: ps, c :: cs => p == c && isPrefixB ps cs

/-- Substring containment: does `pat` occur contiguously inside the list? -/
def containsSub (pat : List Char) : List Char → Bool
  | [] => pat.isEmpty
  | c :: rest => isPrefixB pat (c :: rest) || containsSub pat rest

/-- JavaScript `s.includes(pat)`. -/
def jsIncludes (s pat : String) : Bool := containsSub pat.data s.data

/-- JavaScript `s.toLowerCase()` (ASCII range). -/
def jsToLower (s : String) : String := ⟨s.data.map Char.toLower⟩

/-! ## `mapTypeToIcon` (src/services/geminiService.ts:73-86) -/

/-- Direct transcription of `mapTypeToIcon`: lowercase the type and test
the keyword sets in source order, first match winning. -/
def mapTypeToIcon (ty : String) : String :=
  let t := jsToLower ty
  if jsIncludes t "resistor" then "resistor"
  else if jsIncludes t "cap" then "capacitor"
  else if jsIncludes t "induct" || jsIncludes t "coil" then "inductor"
  else if jsIncludes t "diode" || jsIncludes t "led" || jsIncludes t "rectifier" then "diode"
  else if jsIncludes t "transistor" || jsIncludes t "fet" || jsIncludes t "bjt"
      || jsIncludes t "igbt" then "transistor"
  else if jsIncludes t "ic" || jsIncludes t "chip" || jsIncludes t "processor"
      || jsIncludes t "controller" || jsIncludes t "op-amp" || jsIncludes t "opamp" then "chip"
  else if jsIncludes t "switch" || jsIncludes t "button" || jsIncludes t "relay" then "switch"
  else if jsIncludes t "conn" || jsIncludes t "head" || jsIncludes t "jack"
      || jsIncludes t "plug" || jsIncludes t "socket" then "connector"
  else if jsIncludes t "gnd" || jsIncludes t "ground" then "ground"
  else if jsIncludes t "volt" || jsIncludes t "sourc" || jsIncludes t "batt"
      || jsIncludes t "cell" || jsIncludes t "pwr" || jsIncludes t "vcc" then "power"
  else "generic"

/-! ## `analyzeSchematicImage` (src/services/geminiService.ts:152-209) -/

/-- The possible outcomes of the single `generateContent` call made by
`analyzeSchematicImage`, as observed by the code after the call:
  * `failed msg`  - the call threw, or `JSON.parse(response.text)` threw
                    (the error is rethrown with its own message);
  * `noText`      - `response.text` was empty/absent;
  * `parsed a`    - `response.text` parsed to the JSON object `a`. -/
inductive ExtractResponse where
  | failed (msg : String)
  | noText
  | parsed (a : RawAnalysis)
deriving DecidableEq, Repr

/-- The message of the `TypeError` JavaScript raises at
src/services/geminiService.ts:193 when `analysis.components` is `undefined`
and `.map` is invoked on it (wording is engine-specific; only the fact that
an error is thrown matters to the claims). -/
def componentsTypeError : String := "TypeError: analysis.components is undefined"

/-- `analyzeSchematicImage`, given the outcome of its backend call.
Transcribed from the source: no field validation happens; the components
list is mapped to attach `icon := mapTypeToIcon(type)`; a missing (falsy)
`netlist` is replaced by `[]`; everything else is returned as parsed.
If `analysis.components` is absent, `.map` throws, the `catch` block
rethrows, and the whole call fails. -/
def analyzeSchematicImage : ExtractResponse → Except String RawAnalysis
  | .failed msg => .error msg
  | .noText => .error "No response text generated"
  | .parsed a =>
    match a.components with
    | none => .error componentsTypeError
    | some cs =>
      .ok { a with
        components := some (cs.map fun c => { c with icon := some (mapTypeToIcon c.type) }),
        netlist := if a.netlist = none then some [] else a.netlist }

/-! ## `detectSchematicPages` (src/services/geminiService.ts:92-150) -/

/-- `BATCH_SIZE` constant (src/services/geminiService.ts:99). -/
def BATCH_SIZE : Nat := 5

/-- Number of iterations of `for (let i = 0; i < images.length; i += BATCH_SIZE)`:
batch `k` covers global indices `[BATCH_SIZE*k, BATCH_SIZE*(k+1)) ∩ [0, n)`. -/
def numBatches (n : Nat) : Nat := (n + BATCH_SIZE - 1) / BATCH_SIZE

/-- `detectSchematicPages`, instrumented with the number of backend
(`generateContent`) calls it performs.  `resp k` is the environment's answer
for batch `k`: `none` when the call threw, the response had no text, or its
JSON was malformed (all of which make the batch contribute nothing, by the
`try`/`catch` and the `if (response.text)` guard); `some ids` is the parsed
`result.indices` list.  Successful batch-local indices are shifted by the
batch's global start offset `BATCH_SIZE * k` and appended in batch order.
Nothing is sorted, deduplicated, or range-checked. -/
def detectSchematicPagesRun (images : List String) (resp : Nat → Option (List Nat)) :
    List Nat × Nat :=
  -- fast path: `if (images.length === 1) return [0];` - no call is made
  if images.length = 1 then ([0], 0)
  else
    ((List.range (numBatches images.length)).flatMap fun k =>
      match resp k with
      | some ids => ids.map fun idx => idx + BATCH_SIZE * k
      | none => [],
     numBatches images.length)

/-- The index list `detectSchematicPages` returns. -/
def detectSchematicPages (images : List String) (resp : Nat → Option (List Nat)) :
    List Nat :=
  (detectSchematicPagesRun images resp).1

/-! ## Orchestrator (src/App.tsx, `handleFileSelected`, lines 68-131) -/

/-- The error message thrown at src/App.tsx:98 when the classifier returns
an empty index list. -/
def noSchematicsMsg : String := "No schematics or wiring diagrams detected in this file."

/-- The final state `handleFileSelected` leaves the React state in:
`status`/`error`/`pages` after the run (the transient `rendering_pdf`,
`filtering`, `analyzing` statuses are passed through on the way). -/
structure RunState where
  status : AnalysisStatus
  errorMsg : Option String
  pages : List PageResult
deriving DecidableEq, Repr

/-- The `for` loop of src/App.tsx:107-120: one `analyzeSchematicImage` call
per classified index, in list order, pushing
`{ pageNumber: pageIdx + 1, image: images[pageIdx], analysis }` per success.
The first failing call aborts the loop (the thrown error escapes to the
`catch`).  Also returns the list of global indices the extractor was
actually invoked on, in call order. -/
def extractLoop (images : List String) (extract : Nat → Except String RawAnalysis) :
    List Nat → Except String (List PageResult) × List Nat
  | [] => (.ok [], [])
  | idx :: rest =>
    match extract idx with
    | .error e => (.error e, [idx])
    | .ok a =>
      match extractLoop images extract rest with
      | (.ok results, calls) =>
        (.ok ({ pageNumber := idx + 1, image := images.getD idx "", analysis := a } :: results),
         idx :: calls)
      | (.error e, calls) => (.error e, idx :: calls)

/-- `handleFileSelected` after rasterization has produced `images`
(src/App.tsx:91-130), paired with the list of extractor calls made.
`classResp` answers the classifier's batch calls, `extractResp` the
extractor's per-page call.  Mirrors the source: an empty classified index
list throws the "no schematics" error; any extraction failure reaches the
`catch`, which records the message and sets status `error` - `setPages` was
never executed, so `pages` keeps the `[]` installed by `reset()`. -/
def handleFileSelected (images : List String) (classResp : Nat → Option (List Nat))
    (extractResp : Nat → ExtractResponse) : RunState × List Nat :=
  let indices := detectSchematicPages images classResp
  if indices.isEmpty then
    ({ status := .error, errorMsg := some noSchematicsMsg, pages := [] }, [])
  else
    match extractLoop images (fun idx => analyzeSchematicImage (extractResp idx)) indices with
    | (.error e, calls) => ({ status := .error, errorMsg := some e, pages := [] }, calls)
    | (.ok results, calls) => ({ status := .complete, errorMsg := none, pages := results }, calls)

/-! ## Component-list editing (src/components/ComponentList.tsx) -/

/-- The four `keyof SchematicComponent` values the editing UI passes to
`handleChange` (one text input per column). -/
inductive ComponentField where
  | designator
  | type
  | value
  | notes
deriving DecidableEq, Repr

/-- `{ ...c, [field]: v }` for the four editable string fields. -/
def setField (c : SchematicComponent) : ComponentField → String → SchematicComponent
  | .designator, v => { c with designator := v }
  | .type, v => { c with type := v }
  | .value, v => { c with value := v }
  | .notes, v => { c with notes := v }

/-- `handleChange` (ComponentList.tsx:61-66): copy the list and replace the
`index`-th entry by a field-updated copy.  The UI only ever calls it with an
in-range row index; out of range the list is returned unchanged. -/
def handleChange (cs : List SchematicComponent) (i : Nat) (f : ComponentField)
    (v : String) : List SchematicComponent :=
  match cs[i]? with
  | some c => cs.set i (setField c f v)
  | none => cs

/-- `handleDelete` (ComponentList.tsx:68-72):
`components.filter((_, i) => i !== index)`. -/
def handleDelete (cs : List SchematicComponent) (i : Nat) : List SchematicComponent :=
  cs.eraseIdx i

/-- The designator `handleAdd` invents: `` `C${components.length + 1}` ``. -/
def newComponentDesignator (cs : List SchematicComponent) : String :=
  "C" ++ toString (cs.length + 1)

/-- `handleAdd` (ComponentList.tsx:74-84): append a fresh placeholder
component. -/
def handleAdd (cs : List SchematicComponent) : List SchematicComponent :=
  cs ++ [{ designator := newComponentDesignator cs, type := "Unknown", value := "?",
           notes := "", boundingBox := none, icon := some "generic" }]

/-! ## Well-formedness of classifier batch responses

The spec assumes each batch response lists batch-local positions of the
batch's own images; `respOk` states that for batch `k` of an `n`-image run:
indices strictly ascending (hence duplicate-free) and below the batch's
length `min BATCH_SIZE (n - BATCH_SIZE * k)`.  A failed batch (`none`) is
trivially fine. -/

/-- A single batch response is well formed. -/
def respOk (n k : Nat) : Option (List Nat) → Prop
  | none => True
  | some ids => List.Pairwise (· < ·) ids ∧
      ∀ idx ∈ ids, idx < min BATCH_SIZE (n - BATCH_SIZE * k)

instance respOk.dec (n k : Nat) : (o : Option (List Nat)) → Decidable (respOk n k o)
  | none => isTrue trivial
  | some _ => inferInstanceAs (Decidable (_ ∧ _))

/-- Every batch response the classifier can consume is well formed. -/
def wellFormedResp (n : Nat) (resp : Nat → Option (List Nat)) : Prop :=
  ∀ k < numBatches n, respOk n k (resp k)

instance wellFormedResp.dec (n : Nat) (resp : Nat → Option (List Nat)) :
    Decidable (wellFormedResp n resp) :=
  inferInstanceAs (Decidable (∀ k < numBatches n, respOk n k (resp k)))

/-! ## Concrete runs used as counterexamples and witnesses -/

/-- A component whose type matches the "resistor" keyword. -/
def r1Comp : SchematicComponent :=
  { designator := "R1", type := "10k Resistor", value := "10k", notes := "" }

/-- A fully populated, minimal extraction response object. -/
def goodRaw : RawAnalysis :=
  ⟨some "T", some "O", some [], some [], some "C", some [], some []⟩

/-- An extraction response object lacking only `title`. -/
def titlelessRaw : RawAnalysis :=
  ⟨none, some "O", some [], some [], some "C", some [], some []⟩

/-- An extraction response object lacking only `netlist`. -/
def netlessRaw : RawAnalysis :=
  ⟨some "T", some "O", some [r1Comp], some [], some "C", none, some []⟩

/-- What `analyzeSchematicImage` produces on `netlessRaw`. -/
def netlessOut : RawAnalysis :=
  ⟨some "T", some "O", some [{ r1Comp with icon := some "resistor" }], some [], some "C",
   some [], some []⟩

/-- A fully populated extraction response with one component, one block,
one net and one issue. -/
def frameRaw : RawAnalysis :=
  ⟨some "T", some "O", some [r1Comp], some [⟨"Blk", "d", ["R1"]⟩], some "C",
   some [⟨"VCC", ["R1-1"]⟩], some ["check"]⟩

/-- What `analyzeSchematicImage` produces on `frameRaw`: only the
component's `icon` and nothing else changes. -/
def frameOut : RawAnalysis :=
  ⟨some "T", some "O", some [{ r1Comp with icon := some "resistor" }],
   some [⟨"Blk", "d", ["R1"]⟩], some "C", some [⟨"VCC", ["R1-1"]⟩], some ["check"]⟩

/-- A six-page document (two classification batches: 5 + 1 pages). -/
def cxImages6 : List String := List.replicate 6 "img"

/-- Adversarial batch responses: batch 0 answers out of order, batch 1
answers an index beyond its own single image. -/
def cxResp : Nat → Option (List Nat) := fun k => if k = 0 then some [3, 1] else some [7]

/-- Well-formed batch responses for the six-page document. -/
def wfResp : Nat → Option (List Nat) :=
  fun k => if k = 0 then some [1, 3] else if k = 1 then some [0] else none

/-- Batch 0 answers `[3, 1]` (unsorted), batch 1 fails. -/
def c3Resp : Nat → Option (List Nat) := fun k => if k = 0 then some [3, 1] else none

/-- An extractor backend that always returns the minimal valid response. -/
def okExtract : Nat → ExtractResponse := fun _ => .parsed goodRaw

/-- An eight-page document. -/
def w8Images : List String := List.replicate 8 "pg"

/-- Batch responses classifying exactly global pages 1 and 4. -/
def w8Resp : Nat → Option (List Nat) := fun k => if k = 0 then some [1, 4] else some []

/-- A two-page document. -/
def c4Images : List String := ["a", "b"]

/-- The single batch classifies both pages. -/
def c4Resp : Nat → Option (List Nat) := fun _ => some [0, 1]

/-- Extraction succeeds on page 0 and fails (empty response text) on page 1. -/
def c4Extract : Nat → ExtractResponse := fun i => if i = 0 then .parsed goodRaw else .noText

/-- Batch 0 fails, batch 1 classifies its first image. -/
def w5Resp : Nat → Option (List Nat) := fun k => if k = 0 then none else some [0]

/-- A two-page document whose single classification batch fails. -/
def c7Images : List String := ["a", "b"]

/-- The failing batch response. -/
def c7Resp : Nat → Option (List Nat) := fun _ => none

/-- A one-element component list whose designator collides with the name
`handleAdd` will invent (`"C" ++ toString (1 + 1)`). -/
def dupBait : List SchematicComponent :=
  [{ designator := "C2", type := "Capacitor", value := "1uF", notes := "" }]

/-- A one-element component list with no name collisions. -/
def wComps : List SchematicComponent := [r1Comp]

/-! ## Helper lemmas -/

/-- Characterization of a fully successful extraction loop: every classified
index was called, in order, and each produced a page numbered `index + 1`. -/
theorem extractLoop_ok (images : List String) (extract : Nat → Except String RawAnalysis) :
    ∀ (l : List Nat) (res : List PageResult) (calls : List Nat),
      extractLoop images extract l = (.ok res, calls) →
      calls = l ∧ res.map PageResult.pageNumber = l.map (· + 1) ∧
        ∀ idx ∈ l, (extract idx).isOk = true := by
  intro l
  induction l with
  | nil =>
    intro res calls h
    simp [extractLoop] at h
    obtain ⟨h1, h2⟩ := h
    subst h1; subst h2
    simp
  | cons idx rest ih =>
    intro res calls h
    simp only [extractLoop] at h
    cases hx : extract idx with
    | error e => rw [hx] at h; simp at h
    | ok a =>
      rw [hx] at h
      cases hrec : extractLoop images extract rest with
      | mk out cl =>
        cases out with
        | error e => rw [hrec] at h; simp at h
        | ok results =>
          rw [hrec] at h
          simp only [Prod.mk.injEq, Except.ok.injEq] at h
          obtain ⟨hres, hcalls⟩ := h
          obtain ⟨h1, h2, h3⟩ := ih results cl hrec
          subst hres hcalls
          refine ⟨by rw [h1], by simp [h2], ?_⟩
          intro i hi
          rcases List.mem_cons.mp hi with h | h
          · subst h; rw [hx]; rfl
          · exact h3 i h

/-- A failing extraction loop reports the message of one of the calls it
actually made (the last one). -/
theorem extractLoop_error (images : List String) (extract : Nat → Except String RawAnalysis) :
    ∀ (l : List Nat) (e : String) (calls : List Nat),
      extractLoop images extract l = (.error e, calls) →
      ∃ idx ∈ calls, extract idx = .error e := by
  intro l
  induction l with
  | nil => intro e calls h; simp [extractLoop] at h
  | cons idx rest ih =>
    intro e calls h
    simp only [extractLoop] at h
    cases hx : extract idx with
    | error e' =>
      rw [hx] at h
      simp only [Prod.mk.injEq, Except.error.injEq] at h
      exact ⟨idx, by simp [← h.2], by rw [hx, h.1]⟩
    | ok a =>
      rw [hx] at h
      cases hrec : extractLoop images extract rest with
      | mk out cl =>
        cases out with
        | error e' =>
          rw [hrec] at h
          simp only [Prod.mk.injEq, Except.error.injEq] at h
          obtain ⟨he, hc⟩ := h
          obtain ⟨i, hi, hie⟩ := ih e' cl hrec
          subst he
          exact ⟨i, by simp [← hc, hi], hie⟩
        | ok results => rw [hrec] at h; simp at h

/-- Concatenating per-batch index lists that each live in their own batch's
disjoint, increasing window preserves strict ascending order. -/
theorem flatMap_pairwise_lt (f : Nat → List Nat) :
    ∀ ks : List Nat, List.Pairwise (· < ·) ks →
      (∀ k ∈ ks, List.Pairwise (· < ·) (f k)) →
      (∀ k ∈ ks, ∀ x ∈ f k, BATCH_SIZE * k ≤ x ∧ x < BATCH_SIZE * (k + 1)) →
      List.Pairwise (· < ·) (ks.flatMap f) := by
  intro ks
  induction ks with
  | nil => intro _ _ _; simp
  | cons k ks ih =>
    intro hks hin hbound
    rw [List.flatMap_cons, List.pairwise_append]
    refine ⟨hin k (by simp), ?_, ?_⟩
    · exact ih hks.of_cons (fun k' hk' => hin k' (by simp [hk']))
        (fun k' hk' => hbound k' (by simp [hk']))
    · intro x hx y hy
      obtain ⟨k', hk', hyk'⟩ := List.mem_flatMap.mp hy
      have hkk' : k < k' := (List.pairwise_cons.mp hks).1 k' hk'
      have hx2 : x < BATCH_SIZE * (k + 1) := (hbound k (by simp) x hx).2
      have hy1 : BATCH_SIZE * k' ≤ y := (hbound k' (by simp [hk']) y hyk').1
      have hmul : BATCH_SIZE * (k + 1) ≤ BATCH_SIZE * k' := Nat.mul_le_mul_left _ hkk'
      omega

/-- Under well-formed batch responses the classifier's output is strictly
ascending. -/
theorem detect_pairwise (images : List String) (resp : Nat → Option (List Nat))
    (h : wellFormedResp images.length resp) :
    List.Pairwise (· < ·) (detectSchematicPages images resp) := by
  unfold detectSchematicPages detectSchematicPagesRun
  by_cases h1 : images.length = 1
  · simp [h1]
  · simp only [h1, if_false]
    apply flatMap_pairwise_lt
    · exact List.pairwise_lt_range _
    · intro k hk
      have hk' := List.mem_range.mp hk
      have hrk := h k hk'
      cases hr : resp k with
      | none => simp
      | some ids =>
        rw [hr] at hrk
        simp only [respOk] at hrk
        exact hrk.1.map _ (fun a b hab => by omega)
    · intro k hk x hx
      have hk' := List.mem_range.mp hk
      have hrk := h k hk'
      cases hr : resp k with
      | none => rw [hr] at hx; simp at hx
      | some ids =>
        rw [hr] at hrk hx
        simp only [respOk] at hrk
        obtain ⟨i, hi, rfl⟩ := List.mem_map.mp hx
        have := hrk.2 i hi
        simp only [BATCH_SIZE] at *
        omega

/-- Under well-formed batch responses every classified index addresses a
real page. -/
theorem detect_bounded (images : List String) (resp : Nat → Option (List Nat))
    (h : wellFormedResp images.length resp) :
    ∀ idx ∈ detectSchematicPages images resp, idx < images.length := by
  intro idx hidx
  unfold detectSchematicPages detectSchematicPagesRun at hidx
  by_cases h1 : images.length = 1
  · rw [h1]
    simp [h1] at hidx
    omega
  · simp only [h1, if_false] at hidx
    obtain ⟨k, hk, hmem⟩ := List.mem_flatMap.mp hidx
    have hk' := List.mem_range.mp hk
    have hrk := h k hk'
    cases hr : resp k with
    | none => rw [hr] at hmem; simp at hmem
    | some ids =>
      rw [hr] at hrk hmem
      simp only [respOk] at hrk
      obtain ⟨i, hi, rfl⟩ := List.mem_map.mp hmem
      have := hrk.2 i hi
      omega

/-- Mapping commutes with removing an index. -/
theorem eraseIdx_map_comm {α β : Type} (f : α → β) (l : List α) :
    ∀ i : Nat, (l.map f).eraseIdx i = (l.eraseIdx i).map f := by
  induction l with
  | nil => intro i; simp
  | cons x xs ih =>
    intro i
    cases i with
    | zero => simp
    | succ j => simp only [List.map_cons, List.eraseIdx_cons_succ, ih j]

/-- Writing back the value already stored at an index is a no-op. -/
theorem set_getElem?_eq_self {α : Type} (l : List α) :
    ∀ (i : Nat) (a : α), l[i]? = some a → l.set i a = l := by
  induction l with
  | nil => intro i a h; simp at h
  | cons x xs ih =>
    intro i a h
    cases i with
    | zero => simp at h; simp [h]
    | succ j =>
      simp only [List.getElem?_cons_succ] at h
      simp [ih j a h]

/-- Overwriting one position with a value that occurs nowhere else keeps a
duplicate-free list duplicate-free. -/
theorem nodup_set_of_not_mem_eraseIdx {α : Type} [DecidableEq α] (l : List α) :
    ∀ (i : Nat) (b : α), l.Nodup → b ∉ l.eraseIdx i → (l.set i b).Nodup := by
  induction l with
  | nil => intro i b _ _; simp
  | cons x xs ih =>
    intro i b hnd hb
    cases i with
    | zero =>
      simp only [List.eraseIdx_cons_zero] at hb
      simp only [List.set_cons_zero, List.nodup_cons]
      exact ⟨hb, (List.nodup_cons.mp hnd).2⟩
    | succ j =>
      simp only [List.eraseIdx_cons_succ, List.mem_cons, not_or] at hb
      simp only [List.set_cons_succ, List.nodup_cons]
      obtain ⟨hx, hxs⟩ := List.nodup_cons.mp hnd
      refine ⟨?_, ih j b hxs hb.2⟩
      intro hmem
      rcases List.mem_or_eq_of_mem_set hmem with hmm | hmm
      · exact hx hmm
      · exact hb.1 hmm.symm

/-! ## Claims -/

/-- Claim C1, counterexample.  The claim asserts that for every input image
sequence and every sequence of backend batch responses the returned index
list is sorted ascending, duplicate-free, and below the page count.  On the
six-page document `cxImages6`, with batch 0 answering `[3, 1]` and batch 1
answering `[7]`, `detectSchematicPages` returns `[3, 1, 12]`: unsorted, and
containing `12 ≥ 6` - the code never sorts, dedupes, or range-checks. -/
theorem detectSchematicPages_unsorted_counterexample :
    ¬ (List.Sorted (· ≤ ·) (detectSchematicPages cxImages6 cxResp) ∧
       (detectSchematicPages cxImages6 cxResp).Nodup ∧
       ∀ idx ∈ detectSchematicPages cxImages6 cxResp, idx < cxImages6.length) := by
  decide

/-- Claim C1, amended: provided every successful batch response is itself
strictly ascending, duplicate-free, and confined to its batch's own length
(`wellFormedResp`), the index list returned by `detectSchematicPages` is
sorted ascending, contains no duplicates, and every index is strictly less
than the number of input images. -/
theorem detectSchematicPages_sorted_of_wellFormed (images : List String)
    (resp : Nat → Option (List Nat)) (h : wellFormedResp images.length resp) :
    List.Sorted (· ≤ ·) (detectSchematicPages images resp) ∧
    (detectSchematicPages images resp).Nodup ∧
    ∀ idx ∈ detectSchematicPages images resp, idx < images.length :=
  ⟨(detect_pairwise images resp h).imp (fun hab => Nat.le_of_lt hab),
   (detect_pairwise images resp h).imp (fun hab => Nat.ne_of_lt hab),
   detect_bounded images resp h⟩

/-- Claim C1, witness: the six-page document with well-formed responses
`[1, 3]` / `[0]` satisfies the hypothesis, and the theorem yields a sorted,
duplicate-free result (`[1, 3, 5]`). -/
theorem detectSchematicPages_sorted_witness :
    wellFormedResp cxImages6.length wfResp ∧
    List.Sorted (· ≤ ·) (detectSchematicPages cxImages6 wfResp) ∧
    (detectSchematicPages cxImages6 wfResp).Nodup :=
  ⟨by decide,
   (detectSchematicPages_sorted_of_wellFormed cxImages6 wfResp (by decide)).1,
   (detectSchematicPages_sorted_of_wellFormed cxImages6 wfResp (by decide)).2.1⟩

/-- Claim C2, counterexample.  The claim asserts that an extraction
response lacking `title` makes the extraction fail with an error.  On
`titlelessRaw` (only `title` absent) the code succeeds, returning the
object unchanged - no validation of `title`, `overview`,
`functionalBlocks`, or `connectivityLogic` exists in the source. -/
theorem analyzeSchematicImage_missing_title_ok :
    titlelessRaw.title = none ∧
    analyzeSchematicImage (.parsed titlelessRaw) = .ok titlelessRaw :=
  ⟨rfl, rfl⟩

/-- Claim C2, amended: parsing succeeds exactly when `components` is
present (its absence raises the only client-side error, a `TypeError` from
`.map`); `title`, `overview`, `functionalBlocks`, `connectivityLogic`, and
`potentialIssues` are passed through as parsed - absent ones stay absent,
with no error and no defaulting; an absent `netlist` is backfilled to the
empty list and a present one is kept. -/
theorem analyzeSchematicImage_field_tolerance (a : RawAnalysis) :
    ((analyzeSchematicImage (.parsed a)).isOk = true ↔ a.components ≠ none) ∧
    (∀ r, analyzeSchematicImage (.parsed a) = .ok r →
      r.title = a.title ∧ r.overview = a.overview ∧
      r.functionalBlocks = a.functionalBlocks ∧
      r.connectivityLogic = a.connectivityLogic ∧
      r.potentialIssues = a.potentialIssues ∧
      (a.netlist = none → r.netlist = some []) ∧
      (∀ nl, a.netlist = some nl → r.netlist = some nl)) ∧
    (a.components = none → analyzeSchematicImage (.parsed a) = .error componentsTypeError) := by
  rcases a with ⟨t, o, comps, fb, cl, nl, pi⟩
  cases comps with
  | none => simp [analyzeSchematicImage, Except.isOk, Except.toBool]
  | some cs =>
    refine ⟨by simp [analyzeSchematicImage, Except.isOk, Except.toBool], ?_, by simp⟩
    intro r hr
    simp only [analyzeSchematicImage, Except.ok.injEq] at hr
    subst hr
    cases nl <;> simp

/-- Claim C2, witness: on `netlessRaw` (only `netlist` absent) extraction
succeeds and the result's `netlist` is the empty list. -/
theorem analyzeSchematicImage_field_tolerance_witness :
    netlessRaw.netlist = none ∧
    (analyzeSchematicImage (.parsed netlessRaw)).isOk = true ∧
    analyzeSchematicImage (.parsed netlessRaw) = .ok netlessOut ∧
    netlessOut.netlist = some [] :=
  ⟨rfl,
   (analyzeSchematicImage_field_tolerance netlessRaw).1.mpr (by decide),
   rfl,
   ((analyzeSchematicImage_field_tolerance netlessRaw).2.1 netlessOut rfl).2.2.2.2.2.1 rfl⟩

/-- Claim C3, counterexample.  The claim asserts that every run reaching
`complete` called the extractor in ascending index order with strictly
increasing page numbers.  With batch 0 of the six-page document answering
`[3, 1]`, the run completes having called the extractor on 3 then 1, with
page numbers `[4, 2]` - the orchestrator simply follows the classifier's
(unsorted) list order. -/
theorem handleFileSelected_order_counterexample :
    (handleFileSelected cxImages6 c3Resp okExtract).1.status = .complete ∧
    (handleFileSelected cxImages6 c3Resp okExtract).2 = [3, 1] ∧
    (handleFileSelected cxImages6 c3Resp okExtract).1.pages.map PageResult.pageNumber = [4, 2] ∧
    ¬ List.Pairwise (· < ·)
        ((handleFileSelected cxImages6 c3Resp okExtract).1.pages.map PageResult.pageNumber) := by
  decide

/-- Claim C3, amended: every run reaching `complete` invoked the extractor
exactly once per classified index, in the classifier's list order, and each
resulting page's number is its global index plus 1; whenever the classified
index list is strictly ascending (e.g. `[1, 4]`, as a well-behaved backend
produces) the page numbers are strictly increasing (`[2, 5]`). -/
theorem handleFileSelected_complete_order (images : List String)
    (classResp : Nat → Option (List Nat)) (extractResp : Nat → ExtractResponse)
    (st : RunState) (calls : List Nat)
    (hrun : handleFileSelected images classResp extractResp = (st, calls))
    (hst : st.status = .complete) :
    calls = detectSchematicPages images classResp ∧
    st.pages.map PageResult.pageNumber = calls.map (· + 1) ∧
    (List.Pairwise (· < ·) calls →
      List.Pairwise (· < ·) (st.pages.map PageResult.pageNumber)) := by
  unfold handleFileSelected at hrun
  by_cases hemp : (detectSchematicPages images classResp).isEmpty = true
  · rw [if_pos hemp, Prod.mk.injEq] at hrun
    obtain ⟨h1, h2⟩ := hrun
    subst h1
    simp at hst
  · rw [if_neg hemp] at hrun
    cases hL : extractLoop images (fun idx => analyzeSchematicImage (extractResp idx))
        (detectSchematicPages images classResp) with
    | mk out cl =>
      rw [hL] at hrun
      cases out with
      | error e =>
        dsimp only at hrun
        rw [Prod.mk.injEq] at hrun
        obtain ⟨h1, h2⟩ := hrun
        subst h1
        simp at hst
      | ok results =>
        dsimp only at hrun
        rw [Prod.mk.injEq] at hrun
        obtain ⟨h1, h2⟩ := hrun
        subst h1; subst h2
        obtain ⟨hcl, hpn, _⟩ := extractLoop_ok images _ _ results cl hL
        subst hcl
        refine ⟨rfl, hpn, ?_⟩
        intro hpw
        rw [hpn, List.pairwise_map]
        exact hpw.imp (by omega)

/-- Claim C3, witness: the eight-page document classified as `{1, 4}`
completes with extractor calls `[1, 4]` and page numbers `[2, 5]`, in that
order. -/
theorem handleFileSelected_complete_order_witness :
    (handleFileSelected w8Images w8Resp okExtract).1.status = .complete ∧
    (handleFileSelected w8Images w8Resp okExtract).2 = [1, 4] ∧
    (handleFileSelected w8Images w8Resp okExtract).1.pages.map PageResult.pageNumber = [2, 5] ∧
    (handleFileSelected w8Images w8Resp okExtract).2 = detectSchematicPages w8Images w8Resp ∧
    (handleFileSelected w8Images w8Resp okExtract).1.pages.map PageResult.pageNumber =
      (handleFileSelected w8Images w8Resp okExtract).2.map (· + 1) :=
  ⟨by decide, by decide, by decide,
   (handleFileSelected_complete_order w8Images w8Resp okExtract _ _ rfl (by decide)).1,
   (handleFileSelected_complete_order w8Images w8Resp okExtract _ _ rfl (by decide)).2.1⟩

/-- Claim C4 (confirmed): whenever one of the extraction calls a run
actually performed fails, the run ends in the `error` state carrying the
failing call's message, and the visible result set is empty - pages
analyzed before the failure are discarded (`setPages` is never reached, so
`pages` keeps the `[]` installed by `reset()`). -/
theorem handleFileSelected_extraction_failure (images : List String)
    (classResp : Nat → Option (List Nat)) (extractResp : Nat → ExtractResponse)
    (st : RunState) (calls : List Nat)
    (hrun : handleFileSelected images classResp extractResp = (st, calls))
    (hfail : ∃ idx ∈ calls, (analyzeSchematicImage (extractResp idx)).isOk = false) :
    st.status = .error ∧ st.pages = [] ∧
    ∃ idx ∈ calls, ∃ e, analyzeSchematicImage (extractResp idx) = .error e ∧
      st.errorMsg = some e := by
  unfold handleFileSelected at hrun
  by_cases hemp : (detectSchematicPages images classResp).isEmpty = true
  · rw [if_pos hemp, Prod.mk.injEq] at hrun
    obtain ⟨h1, h2⟩ := hrun
    subst h2
    simp at hfail
  · rw [if_neg hemp] at hrun
    cases hL : extractLoop images (fun idx => analyzeSchematicImage (extractResp idx))
        (detectSchematicPages images classResp) with
    | mk out cl =>
      rw [hL] at hrun
      cases out with
      | error e =>
        dsimp only at hrun
        rw [Prod.mk.injEq] at hrun
        obtain ⟨h1, h2⟩ := hrun
        subst h1; subst h2
        obtain ⟨i, hi, hie⟩ := extractLoop_error images _ _ e cl hL
        exact ⟨rfl, rfl, i, hi, e, hie, rfl⟩
      | ok results =>
        dsimp only at hrun
        rw [Prod.mk.injEq] at hrun
        obtain ⟨h1, h2⟩ := hrun
        subst h1; subst h2
        obtain ⟨hcl, _, hok⟩ := extractLoop_ok images _ _ results cl hL
        obtain ⟨i, hi, hbad⟩ := hfail
        rw [hcl] at hi
        rw [hok i hi] at hbad
        simp at hbad

/-- Claim C4, witness: on the two-page document where page 0 extracts fine
and page 1's response has no text, the run ends in `error` with the
underlying message and zero pages. -/
theorem handleFileSelected_extraction_failure_witness :
    (handleFileSelected c4Images c4Resp c4Extract).1.status = .error ∧
    (handleFileSelected c4Images c4Resp c4Extract).1.pages = [] ∧
    (handleFileSelected c4Images c4Resp c4Extract).1.errorMsg =
      some "No response text generated" :=
  ⟨(handleFileSelected_extraction_failure c4Images c4Resp c4Extract _ _ rfl
      ⟨1, by decide, by decide⟩).1,
   (handleFileSelected_extraction_failure c4Images c4Resp c4Extract _ _ rfl
      ⟨1, by decide, by decide⟩).2.1,
   by decide⟩

/-- Claim C5 (confirmed): even when some batch `j` fails (`resp j = none`),
every other batch `k` that returns indices still contributes all of them,
shifted by its global start offset `BATCH_SIZE * k`, to the returned list -
the `try`/`catch` isolates the failure to its own batch and the loop
continues. -/
theorem detectSchematicPages_skip_on_failure (images : List String)
    (resp : Nat → Option (List Nat))
    (j : Nat) (hj : j < numBatches images.length) (hjfail : resp j = none)
    (k : Nat) (hk : k < numBatches images.length) (hkj : k ≠ j)
    (ids : List Nat) (hids : resp k = some ids) :
    ∀ idx ∈ ids, idx + BATCH_SIZE * k ∈ detectSchematicPages images resp := by
  intro idx hidx
  unfold detectSchematicPages detectSchematicPagesRun
  by_cases h1 : images.length = 1
  · exfalso
    have hnb : numBatches 1 = 1 := rfl
    rw [h1, hnb] at hj hk
    omega
  · simp only [h1, if_false]
    refine List.mem_flatMap.mpr ⟨k, List.mem_range.mpr hk, ?_⟩
    rw [hids]
    exact List.mem_map.mpr ⟨idx, hidx, rfl⟩

/-- Claim C5, witness: on the six-page document, batch 0 fails and batch 1
answers `[0]`; global index `5 = 0 + BATCH_SIZE * 1` is in the result. -/
theorem detectSchematicPages_skip_witness :
    5 ∈ detectSchematicPages cxImages6 w5Resp :=
  detectSchematicPages_skip_on_failure cxImages6 w5Resp 0 (by decide) rfl 1 (by decide)
    (by decide) [0] rfl 0 (by decide)

/-- Claim C7 (confirmed): when the classifier returns an empty index list,
the run ends in the `error` state with the "no schematics detected"
message, zero extractor calls are made, and zero `PageResult`s are kept;
nothing in `handleFileSelected` retries. -/
theorem handleFileSelected_no_schematics (images : List String)
    (classResp : Nat → Option (List Nat)) (extractResp : Nat → ExtractResponse)
    (h : detectSchematicPages images classResp = []) :
    handleFileSelected images classResp extractResp =
      ({ status := .error, errorMsg := some noSchematicsMsg, pages := [] }, []) := by
  unfold handleFileSelected
  simp [h]

/-- Claim C7, witness: on the two-page document whose single batch fails,
the classifier returns `[]` and the run ends in the no-schematics error
state with no pages and no extractor calls. -/
theorem handleFileSelected_no_schematics_witness :
    detectSchematicPages c7Images c7Resp = [] ∧
    handleFileSelected c7Images c7Resp okExtract =
      ({ status := .error, errorMsg := some noSchematicsMsg, pages := [] }, []) :=
  ⟨by decide, handleFileSelected_no_schematics c7Images c7Resp okExtract (by decide)⟩

/-- Claim C9 (confirmed): on a one-element image sequence
`detectSchematicPages` returns exactly `[0]` and performs zero backend
calls, for every possible backend behaviour (the result does not consult
`resp` at all). -/
theorem detectSchematicPages_single_image (img : String)
    (resp : Nat → Option (List Nat)) :
    detectSchematicPagesRun [img] resp = ([0], 0) := rfl

/-- Claim C8, counterexample.  The claim asserts that the user-facing
component operations preserve within-page designator uniqueness.  On a
page whose single component is already named `"C2"`, `handleAdd` appends a
new component named `"C" ++ toString (1 + 1) = "C2"`, producing a duplicate
designator - no operation checks uniqueness. -/
theorem handleAdd_duplicate_counterexample :
    (dupBait.map SchematicComponent.designator).Nodup ∧
    ¬ ((handleAdd dupBait).map SchematicComponent.designator).Nodup := by
  decide

/-- Claim C8, amended: starting from a page with unique designators,
`handleDelete` always preserves uniqueness; `handleChange` preserves it
when the edited field is not the designator, and also when the new
designator value does not occur among the other components; `handleAdd`
preserves it exactly when its invented name `C(length+1)` is not already
taken.  None of the operations enforces these side conditions itself. -/
theorem componentOps_designator_nodup (cs : List SchematicComponent) (i : Nat)
    (f : ComponentField) (v : String)
    (h : (cs.map SchematicComponent.designator).Nodup) :
    ((handleDelete cs i).map SchematicComponent.designator).Nodup ∧
    (f ≠ .designator → ((handleChange cs i f v).map SchematicComponent.designator).Nodup) ∧
    (v ∉ (cs.eraseIdx i).map SchematicComponent.designator →
      ((handleChange cs i .designator v).map SchematicComponent.designator).Nodup) ∧
    (newComponentDesignator cs ∉ cs.map SchematicComponent.designator →
      ((handleAdd cs).map SchematicComponent.designator).Nodup) := by
  refine ⟨?_, ?_, ?_, ?_⟩
  · unfold handleDelete
    exact List.Nodup.sublist ((List.eraseIdx_sublist cs i).map _) h
  · intro hf
    unfold handleChange
    cases hc : cs[i]? with
    | none => exact h
    | some c =>
      have hd : (setField c f v).designator = c.designator := by
        cases f with
        | designator => exact absurd rfl hf
        | type => rfl
        | value => rfl
        | notes => rfl
      rw [List.map_set, hd, set_getElem?_eq_self]
      · exact h
      · rw [List.getElem?_map, hc]
        rfl
  · intro hv
    unfold handleChange
    cases hc : cs[i]? with
    | none => exact h
    | some c =>
      rw [List.map_set]
      have hd : (setField c .designator v).designator = v := rfl
      rw [hd]
      apply nodup_set_of_not_mem_eraseIdx _ _ _ h
      rw [eraseIdx_map_comm]
      exact hv
  · intro hnew
    unfold handleAdd
    rw [List.map_append]
    simp only [List.map_cons, List.map_nil]
    rw [List.nodup_append]
    refine ⟨h, List.nodup_singleton _, ?_⟩
    intro x hx hx'
    simp only [List.mem_singleton] at hx'
    subst hx'
    exact hnew hx

/-- Claim C8, witness: on the singleton page `[R1]` all three operations
(with side conditions satisfied) keep designators unique. -/
theorem componentOps_designator_nodup_witness :
    ((handleDelete wComps 0).map SchematicComponent.designator).Nodup ∧
    ((handleChange wComps 0 .notes "checked").map SchematicComponent.designator).Nodup ∧
    ((handleChange wComps 0 .designator "R9").map SchematicComponent.designator).Nodup ∧
    ((handleAdd wComps).map SchematicComponent.designator).Nodup :=
  ⟨(componentOps_designator_nodup wComps 0 .notes "checked" (by decide)).1,
   (componentOps_designator_nodup wComps 0 .notes "checked" (by decide)).2.1 (by decide),
   (componentOps_designator_nodup wComps 0 .designator "R9" (by decide)).2.2.1 (by decide),
   (componentOps_designator_nodup wComps 0 .notes "x" (by decide)).2.2.2 (by decide)⟩

/-- Claim C10 (confirmed): on a successfully parsed response the
post-processing of `analyzeSchematicImage` changes only the `icon` field of
each component: the components list keeps its length and order and every
component keeps its `designator`, `type`, `value`, `notes`, and
`boundingBox`; `title`, `overview`, `functionalBlocks`,
`connectivityLogic`, `potentialIssues`, and a present `netlist` are
returned exactly as parsed. -/
theorem analyzeSchematicImage_frame (a : RawAnalysis) (cs : List SchematicComponent)
    (r : RawAnalysis) (h : a.components = some cs)
    (hr : analyzeSchematicImage (.parsed a) = .ok r) :
    r.title = a.title ∧ r.overview = a.overview ∧ r.functionalBlocks = a.functionalBlocks ∧
    r.connectivityLogic = a.connectivityLogic ∧ r.potentialIssues = a.potentialIssues ∧
    (∀ nl, a.netlist = some nl → r.netlist = some nl) ∧
    ∃ cs', r.components = some cs' ∧
      cs'.length = cs.length ∧
      cs'.map SchematicComponent.designator = cs.map SchematicComponent.designator ∧
      cs'.map SchematicComponent.type = cs.map SchematicComponent.type ∧
      cs'.map SchematicComponent.value = cs.map SchematicComponent.value ∧
      cs'.map SchematicComponent.notes = cs.map SchematicComponent.notes ∧
      cs'.map SchematicComponent.boundingBox = cs.map SchematicComponent.boundingBox ∧
      cs'.map SchematicComponent.icon = cs.map fun c => some (mapTypeToIcon c.type) := by
  simp only [analyzeSchematicImage, h, Except.ok.injEq] at hr
  subst hr
  refine ⟨rfl, rfl, rfl, rfl, rfl, ?_, ?_⟩
  · intro nl hnl
    simp [hnl]
  · refine ⟨_, rfl, by simp, ?_, ?_, ?_, ?_, ?_, ?_⟩ <;>
      rw [List.map_map] <;> rfl

/-- Claim C10, witness: on the fully populated one-component response
`frameRaw` the output is exactly `frameOut`, which differs from the input
only in the component's `icon`. -/
theorem analyzeSchematicImage_frame_witness :
    analyzeSchematicImage (.parsed frameRaw) = .ok frameOut ∧
    frameOut.title = frameRaw.title ∧
    frameOut.overview = frameRaw.overview ∧
    frameOut.functionalBlocks = frameRaw.functionalBlocks :=
  ⟨rfl,
   (analyzeSchematicImage_frame frameRaw [r1Comp] frameOut rfl rfl).1,
   (analyzeSchematicImage_frame frameRaw [r1Comp] frameOut rfl rfl).2.1,
   (analyzeSchematicImage_frame frameRaw [r1Comp] frameOut rfl rfl).2.2.1⟩

/-- Claim C6 (confirmed): every component's icon in a parsed extraction
result is `mapTypeToIcon` of its type - a pure, deterministic function that
lowercases the type and tests the keyword sets in exactly the source's
priority order, first match winning; in particular `"Op-Amp"` gives
`chip`, `"10k Resistor"` gives `resistor`, and `"Widget"` gives
`generic`. -/
theorem mapTypeToIcon_priority_table :
    (∀ (a : RawAnalysis) (cs : List SchematicComponent) (r : RawAnalysis),
        a.components = some cs → analyzeSchematicImage (.parsed a) = .ok r →
        r.components = some (cs.map fun c => { c with icon := some (mapTypeToIcon c.type) })) ∧
    (∀ ty : String, jsIncludes (jsToLower ty) "resistor" = true →
        mapTypeToIcon ty = "resistor") ∧
    (∀ ty : String, jsIncludes (jsToLower ty) "resistor" = false →
        jsIncludes (jsToLower ty) "cap" = true →
        mapTypeToIcon ty = "capacitor") ∧
    (∀ ty : String, jsIncludes (jsToLower ty) "resistor" = false →
        jsIncludes (jsToLower ty) "cap" = false →
        (jsIncludes (jsToLower ty) "induct" || jsIncludes (jsToLower ty) "coil") = true →
        mapTypeToIcon ty = "inductor") ∧
    (∀ ty : String, jsIncludes (jsToLower ty) "resistor" = false →
        jsIncludes (jsToLower ty) "cap" = false →
        jsIncludes (jsToLower ty) "induct" = false →
        jsIncludes (jsToLower ty) "coil" = false →
        (jsIncludes (jsToLower ty) "diode" || jsIncludes (jsToLower ty) "led" || jsIncludes (jsToLower ty) "rectifier") = true →
        mapTypeToIcon ty = "diode") ∧
    (∀ ty : String, jsIncludes (jsToLower ty) "resistor" = false →
        jsIncludes (jsToLower ty) "cap" = false →
        jsIncludes (jsToLower ty) "induct" = false →
        jsIncludes (jsToLower ty) "coil" = false →
        jsIncludes (jsToLower ty) "diode" = false →
        jsIncludes (jsToLower ty) "led" = false →
        jsIncludes (jsToLower ty) "rectifier" = false →
        (jsIncludes (jsToLower ty) "transistor" || jsIncludes (jsToLower ty) "fet" || jsIncludes (jsToLower ty) "bjt" || jsIncludes (jsToLower ty) "igbt") = true →
        mapTypeToIcon ty = "transistor") ∧
    (∀ ty : String, jsIncludes (jsToLower ty) "resistor" = false →
        jsIncludes (jsToLower ty) "cap" = false →
        jsIncludes (jsToLower ty) "induct" = false →
        jsIncludes (jsToLower ty) "coil" = false →
        jsIncludes (jsToLower ty) "diode" = false →
        jsIncludes (jsToLower ty) "led" = false →
        jsIncludes (jsToLower ty) "rectifier" = false →
        jsIncludes (jsToLower ty) "transistor" = false →
        jsIncludes (jsToLower ty) "fet" = false →
        jsIncludes (jsToLower ty) "bjt" = false →
        jsIncludes (jsToLower ty) "igbt" = false →
        (jsIncludes (jsToLower ty) "ic" || jsIncludes (jsToLower ty) "chip" || jsIncludes (jsToLower ty) "processor" || jsIncludes (jsToLower ty) "controller" || jsIncludes (jsToLower ty) "op-amp" || jsIncludes (jsToLower ty) "opamp") = true →
        mapTypeToIcon ty = "chip") ∧
    (∀ ty : String, jsIncludes (jsToLower ty) "resistor" = false →
        jsIncludes (jsToLower ty) "cap" = false →
        jsIncludes (jsToLower ty) "induct" = false →
        jsIncludes (jsToLower ty) "coil" = false →
        jsIncludes (jsToLower ty) "diode" = false →
        jsIncludes (jsToLower ty) "led" = false →
        jsIncludes (jsToLower ty) "rectifier" = false →
        jsIncludes (jsToLower ty) "transistor" = false →
        jsIncludes (jsToLower ty) "fet" = false →
        jsIncludes (jsToLower ty) "bjt" = false →
        jsIncludes (jsToLower ty) "igbt" = false →
        jsIncludes (jsToLower ty) "ic" = false →
        jsIncludes (jsToLower ty) "chip" = false →
        jsIncludes (jsToLower ty) "processor" = false →
        jsIncludes (jsToLower ty) "controller" = false →
        jsIncludes (jsToLower ty) "op-amp" = false →
        jsIncludes (jsToLower ty) "opamp" = false →
        (jsIncludes (jsToLower ty) "switch" || jsIncludes (jsToLower ty) "button" || jsIncludes (jsToLower ty) "relay") = true →
        mapTypeToIcon ty = "switch") ∧
    (∀ ty : String, jsIncludes (jsToLower ty) "resistor" = false →
        jsIncludes (jsToLower ty) "cap" = false →
        jsIncludes (jsToLower ty) "induct" = false →
        jsIncludes (jsToLower ty) "coil" = false →
        jsIncludes (jsToLower ty) "diode" = false →
        jsIncludes (jsToLower ty) "led" = false →
        jsIncludes (jsToLower ty) "rectifier" = false →
        jsIncludes (jsToLower ty) "transistor" = false →
        jsIncludes (jsToLower ty) "fet" = false →
        jsIncludes (jsToLower ty) "bjt" = false →
        jsIncludes (jsToLower ty) "igbt" = false →
        jsIncludes (jsToLower ty) "ic" = false →
        jsIncludes (jsToLower ty) "chip" = false →
        jsIncludes (jsToLower ty) "processor" = false →
        jsIncludes (jsToLower ty) "controller" = false →
        jsIncludes (jsToLower ty) "op-amp" = false →
        jsIncludes (jsToLower ty) "opamp" = false →
        jsIncludes (jsToLower ty) "switch" = false →
        jsIncludes (jsToLower ty) "button" = false →
        jsIncludes (jsToLower ty) "relay" = false →
        (jsIncludes (jsToLower ty) "conn" || jsIncludes (jsToLower ty) "head" || jsIncludes (jsToLower ty) "jack" || jsIncludes (jsToLower ty) "plug" || jsIncludes (jsToLower ty) "socket") = true →
        mapTypeToIcon ty = "connector") ∧
    (∀ ty : String, jsIncludes (jsToLower ty) "resistor" = false →
        jsIncludes (jsToLower ty) "cap" = false →
        jsIncludes (jsToLower ty) "induct" = false →
        jsIncludes (jsToLower ty) "coil" = false →
        jsIncludes (jsToLower ty) "diode" = false →
        jsIncludes (jsToLower ty) "led" = false →
        jsIncludes (jsToLower ty) "rectifier" = false →
        jsIncludes (jsToLower ty) "transistor" = false →
        jsIncludes (jsToLower ty) "fet" = false →
        jsIncludes (jsToLower ty) "bjt" = false →
        jsIncludes (jsToLower ty) "igbt" = false →
        jsIncludes (jsToLower ty) "ic" = false →
        jsIncludes (jsToLower ty) "chip" = false →
        jsIncludes (jsToLower ty) "processor" = false →
        jsIncludes (jsToLower ty) "controller" = false →
        jsIncludes (jsToLower ty) "op-amp" = false →
        jsIncludes (jsToLower ty) "opamp" = false →
        jsIncludes (jsToLower ty) "switch" = false →
        jsIncludes (jsToLower ty) "button" = false →
        jsIncludes (jsToLower ty) "relay" = false →
        jsIncludes (jsToLower ty) "conn" = false →
        jsIncludes (jsToLower ty) "head" = false →
        jsIncludes (jsToLower ty) "jack" = false →
        jsIncludes (jsToLower ty) "plug" = false →
        jsIncludes (jsToLower ty) "socket" = false →
        (jsIncludes (jsToLower ty) "gnd" || jsIncludes (jsToLower ty) "ground") = true →
        mapTypeToIcon ty = "ground") ∧
    (∀ ty : String, jsIncludes (jsToLower ty) "resistor" = false →
        jsIncludes (jsToLower ty) "cap" = false →
        jsIncludes (jsToLower ty) "induct" = false →
        jsIncludes (jsToLower ty) "coil" = false →
        jsIncludes (jsToLower ty) "diode" = false →
        jsIncludes (jsToLower ty) "led" = false →
        jsIncludes (jsToLower ty) "rectifier" = false →
        jsIncludes (jsToLower ty) "transistor" = false →
        jsIncludes (jsToLower ty) "fet" = false →
        jsIncludes (jsToLower ty) "bjt" = false →
        jsIncludes (jsToLower ty) "igbt" = false →
        jsIncludes (jsToLower ty) "ic" = false →
        jsIncludes (jsToLower ty) "chip" = false →
        jsIncludes (jsToLower ty) "processor" = false →
        jsIncludes (jsToLower ty) "controller" = false →
        jsIncludes (jsToLower ty) "op-amp" = false →
        jsIncludes (jsToLower ty) "opamp" = false →
        jsIncludes (jsToLower ty) "switch" = false →
        jsIncludes (jsToLower ty) "button" = false →
        jsIncludes (jsToLower ty) "relay" = false →
        jsIncludes (jsToLower ty) "conn" = false →
        jsIncludes (jsToLower ty) "head" = false →
        jsIncludes (jsToLower ty) "jack" = false →
        jsIncludes (jsToLower ty) "plug" = false →
        jsIncludes (jsToLower ty) "socket" = false →
        jsIncludes (jsToLower ty) "gnd" = false →
        jsIncludes (jsToLower ty) "ground" = false →
        (jsIncludes (jsToLower ty) "volt" || jsIncludes (jsToLower ty) "sourc" || jsIncludes (jsToLower ty) "batt" || jsIncludes (jsToLower ty) "cell" || jsIncludes (jsToLower ty) "pwr" || jsIncludes (jsToLower ty) "vcc") = true →
        mapTypeToIcon ty = "power") ∧
    (∀ ty : String, jsIncludes (jsToLower ty) "resistor" = false →
        jsIncludes (jsToLower ty) "cap" = false →
        jsIncludes (jsToLower ty) "induct" = false →
        jsIncludes (jsToLower ty) "coil" = false →
        jsIncludes (jsToLower ty) "diode" = false →
        jsIncludes (jsToLower ty) "led" = false →
        jsIncludes (jsToLower ty) "rectifier" = false →
        jsIncludes (jsToLower ty) "transistor" = false →
        jsIncludes (jsToLower ty) "fet" = false →
        jsIncludes (jsToLower ty) "bjt" = false →
        jsIncludes (jsToLower ty) "igbt" = false →
        jsIncludes (jsToLower ty) "ic" = false →
        jsIncludes (jsToLower ty) "chip" = false →
        jsIncludes (jsToLower ty) "processor" = false →
        jsIncludes (jsToLower ty) "controller" = false →
        jsIncludes (jsToLower ty) "op-amp" = false →
        jsIncludes (jsToLower ty) "opamp" = false →
        jsIncludes (jsToLower ty) "switch" = false →
        jsIncludes (jsToLower ty) "button" = false →
        jsIncludes (jsToLower ty) "relay" = false →
        jsIncludes (jsToLower ty) "conn" = false →
        jsIncludes (jsToLower ty) "head" = false →
        jsIncludes (jsToLower ty) "jack" = false →
        jsIncludes (jsToLower ty) "plug" = false →
        jsIncludes (jsToLower ty) "socket" = false →
        jsIncludes (jsToLower ty) "gnd" = false →
        jsIncludes (jsToLower ty) "ground" = false →
        jsIncludes (jsToLower ty) "volt" = false →
        jsIncludes (jsToLower ty) "sourc" = false →
        jsIncludes (jsToLower ty) "batt" = false →
        jsIncludes (jsToLower ty) "cell" = false →
        jsIncludes (jsToLower ty) "pwr" = false →
        jsIncludes (jsToLower ty) "vcc" = false →
        mapTypeToIcon ty = "generic") ∧
    mapTypeToIcon "Op-Amp" = "chip" ∧
    mapTypeToIcon "10k Resistor" = "resistor" ∧
    mapTypeToIcon "Widget" = "generic" := by
  refine ⟨?_, ?_, ?_, ?_, ?_, ?_, ?_, ?_, ?_, ?_, ?_, ?_, by decide, by decide, by decide⟩
  · intro a cs r h hr
    simp only [analyzeSchematicImage, h, Except.ok.injEq] at hr
    subst hr
    rfl
  · intro ty h1
    simp [mapTypeToIcon, h1]
  · intro ty h1 h2
    simp [mapTypeToIcon, h1, h2]
  · intro ty h1 h2 h3
    simp [mapTypeToIcon, h1, h2, h3]
  · intro ty h1 h2 h3 h4 h5
    simp [mapTypeToIcon, h1, h2, h3, h4, h5]
  · intro ty h1 h2 h3 h4 h5 h6 h7 h8
    simp [mapTypeToIcon, h1, h2, h3, h4, h5, h6, h7, h8]
  · intro ty h1 h2 h3 h4 h5 h6 h7 h8 h9 h10 h11 h12
    simp [mapTypeToIcon, h1, h2, h3, h4, h5, h6, h7, h8, h9, h10, h11, h12]
  · intro ty h1 h2 h3 h4 h5 h6 h7 h8 h9 h10 h11 h12 h13 h14 h15 h16 h17 h18
    simp [mapTypeToIcon, h1, h2, h3, h4, h5, h6, h7, h8, h9, h10, h11, h12, h13, h14, h15, h16, h17, h18]
  · intro ty h1 h2 h3 h4 h5 h6 h7 h8 h9 h10 h11 h12 h13 h14 h15 h16 h17 h18 h19 h20 h21
    simp [mapTypeToIcon, h1, h2, h3, h4, h5, h6, h7, h8, h9, h10, h11, h12, h13, h14, h15, h16, h17, h18, h19, h20, h21]
  · intro ty h1 h2 h3 h4 h5 h6 h7 h8 h9 h10 h11 h12 h13 h14 h15 h16 h17 h18 h19 h20 h21 h22 h23 h24 h25 h26
    simp [mapTypeToIcon, h1, h2, h3, h4, h5, h6, h7, h8, h9, h10, h11, h12, h13, h14, h15, h16, h17, h18, h19, h20, h21, h22, h23, h24, h25, h26]
  · intro ty h1 h2 h3 h4 h5 h6 h7 h8 h9 h10 h11 h12 h13 h14 h15 h16 h17 h18 h19 h20 h21 h22 h23 h24 h25 h26 h27 h28
    simp [mapTypeToIcon, h1, h2, h3, h4, h5, h6, h7, h8, h9, h10, h11, h12, h13, h14, h15, h16, h17, h18, h19, h20, h21, h22, h23, h24, h25, h26, h27, h28]
  · intro ty h1 h2 h3 h4 h5 h6 h7 h8 h9 h10 h11 h12 h13 h14 h15 h16 h17 h18 h19 h20 h21 h22 h23 h24 h25 h26 h27 h28 h29 h30 h31 h32 h33
    simp [mapTypeToIcon, h1, h2, h3, h4, h5, h6, h7, h8, h9, h10, h11, h12, h13, h14, h15, h16, h17, h18, h19, h20, h21, h22, h23, h24, h25, h26, h27, h28, h29, h30, h31, h32, h33]

/-- Claim C6, witness: the second rule applied at `"Capacitor"` (does not
contain `"resistor"`, contains `"cap"`) yields `capacitor`. -/
theorem mapTypeToIcon_priority_witness :
    mapTypeToIcon "Capacitor" = "capacitor" :=
  mapTypeToIcon_priority_table.2.2.1 "Capacitor" (by decide) (by decide)
